import Mathlib

/-!
Shallow embedding of `src/dakota.py` (pgdr/carolina): a thin driver layer
binding user evaluation drivers to the DAKOTA engine.  Python objects are
modelled as Lean structures; the process-wide weak-value registry
`_USER_DATA` is modelled as an association list together with an explicit
`reclaim` operation standing for garbage collection of a driver object;
fallible Python code returns `Except`; file writing is modelled as the list
of lines written.
-/

set_option autoImplicit false

namespace Carolina

/-- Python exceptions raised by this module, by type and payload. -/
inductive DakErr where
  | keyError (key : String)
  | runtimeError (msg : String)
  | notImplementedError (msg : String)
  | reraised (ty : String) (value : Option String) (traceback : Option String)
  deriving DecidableEq, Repr

/-- An evaluation response: the driver returns a responses dictionary,
modelled as a list of named numeric entries (opaque to this layer). -/
abbrev Response := List (String × Int)

/-- The keyword-argument bundle DAKOTA passes to `dakota_callback`.
`analysis_components` is `none` when the key is absent from the bundle;
the remaining named fields (cv, asv, currEvalId, ...) are opaque to the
dispatch logic and collapsed into `payload`. -/
structure Kwargs where
  analysis_components : Option (List String)
  payload : List (String × Int)
  deriving DecidableEq, Repr

/-- A user driver object: its process-local object id (`id(obj)` in Python)
and its `dakota_callback` method. -/
structure Driver where
  oid : Nat
  cb : Kwargs → Except DakErr Response

/-- `str(id(data))`: the identity key minted for a driver object. -/
def identOf (d : Driver) : String := toString d.oid

/-- The `_USER_DATA` weak-value dictionary: keys to live driver objects. -/
abbrev Registry := List (String × Driver)

/-- Dictionary assignment `_USER_DATA[ident] = data`: overwrite the entry
for the key if present, otherwise append. -/
def Registry.set : Registry → String → Driver → Registry
  | [], k, d => [(k, d)]
  | (k', d') :: rest, k, d =>
      if k' == k then (k, d) :: rest else (k', d') :: Registry.set rest k d

/-- Dictionary lookup, `none` when the key is missing. -/
def Registry.get? : Registry → String → Option Driver
  | [], _ => none
  | (k', d') :: rest, k => if k' == k then some d' else Registry.get? rest k

/-- Garbage collection of the driver object with id `oid`: every weak-value
entry referencing it vanishes from the dictionary. -/
def Registry.reclaim (oid : Nat) : Registry → Registry
  | [] => []
  | (k, d) :: rest =>
      if d.oid == oid then Registry.reclaim oid rest
      else (k, d) :: Registry.reclaim oid rest

/-- `fetch_data(ident)`: `_USER_DATA[ident]`, raising `KeyError` when the
key was never registered or its driver has been reclaimed. -/
def fetch_data (reg : Registry) (ident : String) : Except DakErr Driver :=
  match Registry.get? reg ident with
  | some d => Except.ok d
  | none => Except.error (DakErr.keyError ident)

/-- Whether the character list `p` is a prefix of `l`. -/
def beginsWith : List Char → List Char → Bool
  | [], _ => true
  | _ :: _, [] => false
  | p :: ps, c :: cs => p == c && beginsWith ps cs

/-- Whether `pat` occurs as a contiguous run inside `l`. -/
def hasSub (pat : List Char) : List Char → Bool
  | [] => beginsWith pat []
  | c :: cs => beginsWith pat (c :: cs) || hasSub pat cs

/-- Python's substring test `pat in s`. -/
def strContains (s pat : String) : Bool := hasSub pat.toList s.toList

/-- Whether a written line is indented, i.e. starts with a tab character. -/
def startsWithTab (l : String) : Bool :=
  match l.toList with
  | [] => false
  | c :: _ => c == '\t'

/-- The six configuration sections of a DAKOTA input file. -/
structure DakotaInput where
  environment : List String
  method : List String
  model : List String
  «variables» : List String
  interface : List String
  responses : List String
  deriving DecidableEq, Repr

/-- The section defaults set by `DakotaInput.__init__` (keyword overrides
are record updates on this value). -/
def DakotaInput.default : DakotaInput where
  environment := [
    "tabular_graphics_data"]
  method := [
    "multidim_parameter_study",
    "  partitions = 4 4"]
  model := [
    "single"]
  «variables» := [
    "continuous_design = 2",
    "  lower_bounds    3    5",
    "  upper_bounds    4    6",
    "  descriptors   'x1' 'x2'"]
  interface := [
    "deactivate evaluation_cache",
    "python",
    "  numpy",
    "  analysis_drivers = 'dakota:dakota_callback'"]
  responses := [
    "num_objective_functions = 1",
    "no_gradients",
    "no_hessians"]

/-- One written section: its header line followed by its content lines,
each indented by one tab (`out.write("\t%s\n" % line)`). -/
def sectionBlock (name : String) (lines : List String) : List String :=
  name :: lines.map (fun l => "\t" ++ l)

/-- The lines written before the point where `write_input` decides about
`data`: the first five sections in their fixed order. -/
def preLines (inp : DakotaInput) : List String :=
  sectionBlock "environment" inp.environment ++
  sectionBlock "method" inp.method ++
  sectionBlock "model" inp.model ++
  sectionBlock "variables" inp.«variables» ++
  sectionBlock "interface" inp.interface

/-- The conflict scan: some interface line contains the substring
`analysis_components`. -/
def hasManualAC (inp : DakotaInput) : Bool :=
  inp.interface.any (fun line => strContains line "analysis_components")

/-- The `analysis_components` line written for identity key `k`. -/
def identLine (k : String) : String :=
  "\t  analysis_components = '" ++ k ++ "'"

/-- Outcome of `DakotaInput.write_input`: either the complete file and the
updated registry, or the `RuntimeError` conflict with the lines already
written before the raise (the file is not rolled back). -/
inductive WriteResult where
  | ok (lines : List String) (reg : Registry)
  | conflict (writtenSoFar : List String) (reg : Registry)

/-- `DakotaInput.write_input(infile, data)`: writes the six sections in
fixed order; after the interface section, when `data` is not `None`, scans
the interface lines for a manual `analysis_components` declaration, raising
`RuntimeError` if found, and otherwise registers `data` under `str(id(data))`
and appends the `analysis_components` line. -/
def write_input (inp : DakotaInput) (data : Option Driver) (reg : Registry) :
    WriteResult :=
  match data with
  | none =>
      WriteResult.ok (preLines inp ++ sectionBlock "responses" inp.responses) reg
  | some d =>
      if hasManualAC inp then
        WriteResult.conflict (preLines inp) reg
      else
        WriteResult.ok
          (preLines inp ++ [identLine (identOf d)] ++
            sectionBlock "responses" inp.responses)
          (Registry.set reg (identOf d) d)

/-- The message of the conflict `RuntimeError`. -/
def conflictMsg : String := "Cannot specify both analysis_components and data"

/-- The logged-and-raised message when `analysis_components` is empty. -/
def noACMsg (pid : Nat) : String :=
  "dakota_callback (" ++ toString pid ++ "): No analysis_components"

/-- The logged-and-raised message when the identity key does not resolve. -/
def unknownMsg (pid : Nat) (ident : String) : String :=
  "dakota_callback (" ++ toString pid ++ "): ident " ++ ident ++
    " not found in user data"

/-- `dakota_callback(**kwargs)`: extracts `analysis_components` (a missing
key raises `KeyError`), treats an empty list as a logged `RuntimeError`,
resolves the first element through `fetch_data` (a `KeyError` there becomes
a logged `RuntimeError`), and forwards the whole bundle to the resolved
driver's `dakota_callback`.  The second component collects the
`logging.error` messages emitted. -/
def dakota_callback (pid : Nat) (reg : Registry) (kwargs : Kwargs) :
    Except DakErr Response × List String :=
  match kwargs.analysis_components with
  | none => (Except.error (DakErr.keyError "analysis_components"), [])
  | some acs =>
      match acs with
      | [] => (Except.error (DakErr.runtimeError (noACMsg pid)), [noACMsg pid])
      | ident :: _ =>
          match fetch_data reg ident with
          | Except.error _ =>
              (Except.error (DakErr.runtimeError (unknownMsg pid ident)),
                [unknownMsg pid ident])
          | Except.ok driver => (driver.cb kwargs, [])

/-- The mutable error-capture slot passed across the engine boundary
(`_ExcInfo`): exception type, value and traceback, each initially `None`. -/
structure ExcInfo where
  type : Option String
  value : Option String
  traceback : Option String
  deriving DecidableEq, Repr

/-- An opaque MPI communicator handle with its rank and size queries. -/
structure MpiComm where
  rank : Nat
  size : Nat
  deriving DecidableEq, Repr

/-- The engine entry point actually invoked by `run_dakota`:
`pyDAKOTA.run_dakota_mpi` with the `boost.mpi` world communicator, the
same with an explicit communicator, or plain `pyDAKOTA.run_dakota`. -/
inductive EngineInvocation where
  | mpiWorld (infile : String) (stdout stderr : Option String)
  | mpiComm (infile : String) (comm : MpiComm) (stdout stderr : Option String)
  | serial (infile : String) (stdout stderr : Option String)
  deriving DecidableEq, Repr

/-- The external engine, modelled as an oracle: for an invocation it
returns the integer status and the error-capture slot it filled. -/
def Engine := EngineInvocation → Int × ExcInfo

/-- The communicator-resolution logic of `run_dakota`: an explicit
`mpi_comm` wins; otherwise the `boost.mpi` world communicator when MPI is
available, `use_mpi` holds and the import succeeds; otherwise serial. -/
def resolveEngineCall (haveMpi use_mpi boostOk : Bool) (mpi_comm : Option MpiComm)
    (infile : String) (stdout stderr : Option String) : EngineInvocation :=
  match mpi_comm with
  | none =>
      if haveMpi && use_mpi then
        if boostOk then EngineInvocation.mpiWorld infile stdout stderr
        else EngineInvocation.serial infile stdout stderr
      else EngineInvocation.serial infile stdout stderr
  | some c => EngineInvocation.mpiComm infile c stdout stderr

/-- The status check at the end of `run_dakota`: on non-zero status, raise
the generic `RuntimeError` when the slot holds no exception type, else
re-raise the captured exception; on zero status return normally. -/
def raiseOnStatus (err : Int) (exc : ExcInfo) : Except DakErr Unit :=
  if err ≠ 0 then
    match exc.type with
    | none => Except.error (DakErr.runtimeError "DAKOTA analysis failed")
    | some ty => Except.error (DakErr.reraised ty exc.value exc.traceback)
  else Except.ok ()

/-- The module-level `run_dakota`: resolve the communicator, invoke the
engine with a fresh error-capture slot, then check the returned status. -/
def run_dakota (engine : Engine) (haveMpi boostOk : Bool) (infile : String)
    (mpi_comm : Option MpiComm) (use_mpi : Bool) (stdout stderr : Option String) :
    Except DakErr Unit :=
  let r := engine (resolveEngineCall haveMpi use_mpi boostOk mpi_comm infile stdout stderr)
  raiseOnStatus r.1 r.2

/-- Observable outcome of one process executing `DakotaBase.run_dakota`:
the file content written by this process (`none` when it wrote nothing),
whether this process entered the module-level `run_dakota`, the registry
afterwards, and the raised-or-normal result. -/
structure BaseRunResult where
  written : Option (List String)
  engineInvoked : Bool
  reg : Registry
  outcome : Except DakErr Unit

/-- `DakotaBase.run_dakota`: only when the global world communicator
reports rank 0 does the process write `self.input` (with itself as `data`)
and call the module-level `run_dakota`; every other rank does nothing. -/
def DakotaBase.run_dakota (world : MpiComm) (self : Driver) (input : DakotaInput)
    (reg : Registry) (engine : Engine) (haveMpi boostOk : Bool) (infile : String)
    (mpi_comm : Option MpiComm) (use_mpi : Bool) (stdout stderr : Option String) :
    BaseRunResult :=
  if world.rank = 0 then
    match write_input input (some self) reg with
    | WriteResult.ok lines reg' =>
        { written := some lines, engineInvoked := true, reg := reg',
          outcome := Carolina.run_dakota engine haveMpi boostOk infile mpi_comm use_mpi stdout stderr }
    | WriteResult.conflict lines reg' =>
        { written := some lines, engineInvoked := false, reg := reg',
          outcome := Except.error (DakErr.runtimeError conflictMsg) }
  else
    { written := none, engineInvoked := false, reg := reg, outcome := Except.ok () }

/-- `DakotaBase.dakota_callback`: the base method must be overridden. -/
def DakotaBase.dakota_callback : Except DakErr Response :=
  Except.error (DakErr.notImplementedError "dakota_callback")

/-- The content lines of the section named `name` in a written file:
the indented lines following the header line. -/
def sectionContent (lines : List String) (name : String) : List String :=
  ((lines.dropWhile (fun l => !(l == name))).drop 1).takeWhile startsWithTab

/-- A concrete driver used to instantiate theorems. -/
def sampleDriver : Driver where
  oid := 12345
  cb := fun _ => Except.ok [("f", 7)]

/-- A second concrete driver. -/
def otherDriver : Driver where
  oid := 54321
  cb := fun _ => Except.ok []

/-- A `DakotaInput` whose interface section manually declares
`analysis_components`. -/
def manualInput : DakotaInput :=
  { DakotaInput.default with
      interface := [
        "python",
        "  analysis_components = 'manual'"] }

/-- An engine run that fails with status 1 and an empty error slot. -/
def failBlankEngine : Engine := fun _ => (1, ⟨none, none, none⟩)

/-- An engine run that fails with status 1 after capturing a `ValueError`. -/
def failCapturedEngine : Engine :=
  fun _ => (1, ⟨some "ValueError", some "bad variable bounds", some "tb"⟩)

/-- An engine run that succeeds with status 0. -/
def okEngine : Engine := fun _ => (0, ⟨none, none, none⟩)

theorem Registry.get_set_self (reg : Registry) (k : String) (d : Driver) :
    Registry.get? (Registry.set reg k d) k = some d := by
  induction reg with
  | nil => simp [Registry.set, Registry.get?]
  | cons p rest ih =>
      by_cases h : p.1 == k
      · simp [Registry.set, Registry.get?, h]
      · simp [Registry.set, Registry.get?, h, ih]

theorem Registry.mem_set_same (reg : Registry) (k : String) (d d' : Driver)
    (hnd : (reg.map Prod.fst).Nodup) (h : (k, d') ∈ Registry.set reg k d) :
    d' = d := by
  induction reg with
  | nil =>
      simp [Registry.set] at h
      exact h
  | cons p rest ih =>
      obtain ⟨k₁, d₁⟩ := p
      simp only [List.map_cons, List.nodup_cons] at hnd
      by_cases hk : k₁ == k
      · have hk' : k₁ = k := by simpa using hk
        subst hk'
        simp [Registry.set, hk] at h
        rcases h with h | h
        · exact h
        · exact absurd (List.mem_map_of_mem Prod.fst h) (by simpa using hnd.1)
      · simp [Registry.set, hk] at h
        rcases h with h | h
        · exact absurd h.1.symm (by simpa using hk)
        · exact ih hnd.2 h

theorem Registry.get_reclaim_none (oid : Nat) (k : String) (l : Registry)
    (h : ∀ d, (k, d) ∈ l → d.oid = oid) :
    Registry.get? (Registry.reclaim oid l) k = none := by
  induction l with
  | nil => rfl
  | cons p rest ih =>
      obtain ⟨k₁, d₁⟩ := p
      have hrest : ∀ d, (k, d) ∈ rest → d.oid = oid := fun d hd =>
        h d (List.mem_cons_of_mem _ hd)
      by_cases ho : d₁.oid == oid
      · simpa [Registry.reclaim, ho] using ih hrest
      · have hk : ¬ (k₁ == k) := by
          intro hkk
          have hk' : k₁ = k := by simpa using hkk
          subst hk'
          exact absurd (h d₁ (List.mem_cons_self _ _)) (by simpa using ho)
        simpa [Registry.reclaim, ho, Registry.get?, hk] using ih hrest

theorem write_input_some_ok (inp : DakotaInput) (d : Driver) (reg : Registry)
    (lines : List String) (reg' : Registry)
    (h : write_input inp (some d) reg = WriteResult.ok lines reg') :
    hasManualAC inp = false ∧
      lines = preLines inp ++ [identLine (identOf d)] ++
        sectionBlock "responses" inp.responses ∧
      reg' = Registry.set reg (identOf d) d := by
  by_cases hc : hasManualAC inp
  · simp [write_input, hc] at h
  · simp only [write_input, hc, if_neg, Bool.false_eq_true, if_false,
      WriteResult.ok.injEq] at h
    exact ⟨by simpa using hc, h.1.symm, h.2.symm⟩

/-- C1: after a successful `write_input(path, data=D)`, the identity key
written into the file's `analysis_components` line resolves through
`fetch_data` to exactly the object `D`. -/
theorem write_then_fetch_returns_driver (inp : DakotaInput) (d : Driver)
    (reg : Registry) (lines : List String) (reg' : Registry)
    (h : write_input inp (some d) reg = WriteResult.ok lines reg') :
    identLine (identOf d) ∈ lines ∧
      fetch_data reg' (identOf d) = Except.ok d := by
  obtain ⟨-, hl, hr⟩ := write_input_some_ok inp d reg lines reg' h
  subst hl; subst hr
  refine ⟨?_, ?_⟩
  · simp [List.mem_append]
  · simp [fetch_data, Registry.get_set_self]

theorem write_then_fetch_returns_driver_witness :
    identLine (identOf sampleDriver) ∈
        (preLines DakotaInput.default ++ [identLine (identOf sampleDriver)] ++
          sectionBlock "responses" DakotaInput.default.responses) ∧
      fetch_data (Registry.set [] (identOf sampleDriver) sampleDriver)
        (identOf sampleDriver) = Except.ok sampleDriver :=
  write_then_fetch_returns_driver DakotaInput.default sampleDriver [] _ _ rfl

/-- C2: `write_input` with a manually supplied `analysis_components` line in
the interface section and a non-null `data` object raises the conflict
`RuntimeError`, whatever the other sections contain. -/
theorem manual_ac_conflict (inp : DakotaInput) (d : Driver) (reg : Registry)
    (line : String) (hmem : line ∈ inp.interface)
    (hsub : strContains line "analysis_components" = true) :
    write_input inp (some d) reg = WriteResult.conflict (preLines inp) reg := by
  have hc : hasManualAC inp = true :=
    List.any_eq_true.mpr ⟨line, hmem, hsub⟩
  simp [write_input, hc]

theorem manual_ac_conflict_witness :
    write_input manualInput (some sampleDriver) [] =
      WriteResult.conflict (preLines manualInput) [] :=
  manual_ac_conflict manualInput sampleDriver []
    "  analysis_components = 'manual'" (by decide) (by decide)

/-- C3 (counterexample): on a request whose bundle lacks the
`analysis_components` key entirely, `dakota_callback` raises the bare
`KeyError` from the dictionary lookup — nothing is logged and no
`MissingIdentity` `RuntimeError` is produced. -/
theorem absent_ac_raises_keyerror :
    dakota_callback 1 [] ⟨none, []⟩ =
      (Except.error (DakErr.keyError "analysis_components"), ([] : List String)) ∧
    (dakota_callback 1 [] ⟨none, []⟩).1 ≠
      Except.error (DakErr.runtimeError (noACMsg 1)) := by
  constructor
  · rfl
  · simp [dakota_callback]

/-- C3 (amended): a request whose `analysis_components` is an empty
sequence fails with the logged `MissingIdentity` `RuntimeError`; a request
from which the field is absent instead raises `KeyError` unlogged. -/
theorem empty_ac_missing_identity (pid : Nat) (reg : Registry)
    (payload : List (String × Int)) :
    dakota_callback pid reg ⟨some [], payload⟩ =
      (Except.error (DakErr.runtimeError (noACMsg pid)), [noACMsg pid]) ∧
    dakota_callback pid reg ⟨none, payload⟩ =
      (Except.error (DakErr.keyError "analysis_components"), []) :=
  ⟨rfl, rfl⟩

/-- C4: when the first analysis component does not resolve in the registry,
`dakota_callback` fails with the logged `UnknownIdentity` `RuntimeError`;
when it resolves, the entire bundle is forwarded to the resolved driver's
`dakota_callback` and its result is returned unmodified. -/
theorem callback_resolution_dispatch (pid : Nat) (reg : Registry)
    (ident : String) (rest : List String) (payload : List (String × Int)) :
    (fetch_data reg ident = Except.error (DakErr.keyError ident) →
      dakota_callback pid reg ⟨some (ident :: rest), payload⟩ =
        (Except.error (DakErr.runtimeError (unknownMsg pid ident)),
          [unknownMsg pid ident])) ∧
    (∀ drv : Driver, fetch_data reg ident = Except.ok drv →
      dakota_callback pid reg ⟨some (ident :: rest), payload⟩ =
        (drv.cb ⟨some (ident :: rest), payload⟩, [])) := by
  constructor
  · intro h
    simp [dakota_callback, h]
  · intro drv h
    simp [dakota_callback, h]

theorem callback_resolution_dispatch_witness :
    dakota_callback 1 [] ⟨some ["99"], []⟩ =
      (Except.error (DakErr.runtimeError (unknownMsg 1 "99")),
        [unknownMsg 1 "99"]) ∧
    dakota_callback 1 [(identOf sampleDriver, sampleDriver)]
        ⟨some [identOf sampleDriver], []⟩ =
      (sampleDriver.cb ⟨some [identOf sampleDriver], []⟩, []) :=
  ⟨(callback_resolution_dispatch 1 [] "99" [] []).1 rfl,
    (callback_resolution_dispatch 1 [(identOf sampleDriver, sampleDriver)]
      (identOf sampleDriver) [] []).2 sampleDriver rfl⟩

/-- C5: when the engine reports a non-zero status, `run_dakota` raises the
generic `RuntimeError` if the error-capture slot holds no exception type,
and re-raises the captured exception (type, value, traceback) otherwise;
on zero status it returns normally. -/
theorem run_dakota_status_semantics (engine : Engine) (haveMpi boostOk : Bool)
    (infile : String) (mpi_comm : Option MpiComm) (use_mpi : Bool)
    (stdout stderr : Option String) (err : Int) (exc : ExcInfo)
    (h : engine (resolveEngineCall haveMpi use_mpi boostOk mpi_comm infile stdout stderr) =
      (err, exc)) :
    (err = 0 →
      run_dakota engine haveMpi boostOk infile mpi_comm use_mpi stdout stderr =
        Except.ok ()) ∧
    (err ≠ 0 → exc.type = none →
      run_dakota engine haveMpi boostOk infile mpi_comm use_mpi stdout stderr =
        Except.error (DakErr.runtimeError "DAKOTA analysis failed")) ∧
    (∀ ty, err ≠ 0 → exc.type = some ty →
      run_dakota engine haveMpi boostOk infile mpi_comm use_mpi stdout stderr =
        Except.error (DakErr.reraised ty exc.value exc.traceback)) := by
  refine ⟨?_, ?_, ?_⟩
  · intro h0
    simp [run_dakota, h, raiseOnStatus, h0]
  · intro h0 ht
    simp [run_dakota, h, raiseOnStatus, h0, ht]
  · intro ty h0 ht
    simp [run_dakota, h, raiseOnStatus, h0, ht]

theorem run_dakota_status_semantics_witness :
    run_dakota failBlankEngine true true "dakota.in" none true none none =
      Except.error (DakErr.runtimeError "DAKOTA analysis failed") ∧
    run_dakota failCapturedEngine true true "dakota.in" none true none none =
      Except.error (DakErr.reraised "ValueError" (some "bad variable bounds")
        (some "tb")) ∧
    run_dakota okEngine true true "dakota.in" none true none none =
      Except.ok () :=
  ⟨((run_dakota_status_semantics failBlankEngine true true "dakota.in" none true
      none none 1 ⟨none, none, none⟩ rfl).2.1 (by decide) rfl),
   ((run_dakota_status_semantics failCapturedEngine true true "dakota.in" none true
      none none 1 ⟨some "ValueError", some "bad variable bounds", some "tb"⟩
      rfl).2.2 "ValueError" (by decide) rfl),
   ((run_dakota_status_semantics okEngine true true "dakota.in" none true
      none none 0 ⟨none, none, none⟩ rfl).1 rfl)⟩

/-- C6: under `DakotaBase.run_dakota`, a process whose world communicator
rank is non-zero writes no file, never enters the module-level `run_dakota`
and leaves the registry untouched; the rank-0 process does write the file. -/
theorem rank_gate_writes_only_on_rank_zero (world : MpiComm) (self : Driver)
    (input : DakotaInput) (reg : Registry) (engine : Engine)
    (haveMpi boostOk : Bool) (infile : String) (mpi_comm : Option MpiComm)
    (use_mpi : Bool) (stdout stderr : Option String) :
    (world.rank ≠ 0 →
      DakotaBase.run_dakota world self input reg engine haveMpi boostOk infile
          mpi_comm use_mpi stdout stderr =
        { written := none, engineInvoked := false, reg := reg,
          outcome := Except.ok () }) ∧
    (world.rank = 0 →
      (DakotaBase.run_dakota world self input reg engine haveMpi boostOk infile
          mpi_comm use_mpi stdout stderr).written.isSome = true) := by
  constructor
  · intro h
    simp [DakotaBase.run_dakota, h]
  · intro h
    simp only [DakotaBase.run_dakota, h, if_pos]
    split <;> simp

theorem rank_gate_writes_only_on_rank_zero_witness :
    DakotaBase.run_dakota ⟨1, 2⟩ sampleDriver DakotaInput.default [] okEngine
        true true "dakota.in" none true none none =
      { written := none, engineInvoked := false, reg := [],
        outcome := Except.ok () } ∧
    (DakotaBase.run_dakota ⟨0, 2⟩ sampleDriver DakotaInput.default [] okEngine
        true true "dakota.in" none true none none).written.isSome = true :=
  ⟨(rank_gate_writes_only_on_rank_zero ⟨1, 2⟩ sampleDriver DakotaInput.default []
      okEngine true true "dakota.in" none true none none).1 (by decide),
   (rank_gate_writes_only_on_rank_zero ⟨0, 2⟩ sampleDriver DakotaInput.default []
      okEngine true true "dakota.in" none true none none).2 rfl⟩

/-- C7: writing a default-constructed `DakotaInput` produces a file whose
non-indented lines are exactly the six section headers in the fixed order
environment, method, model, variables, interface, responses, and whose
every other line is indented by a tab. -/
theorem default_write_section_headers (reg : Registry) :
    ∃ lines,
      write_input DakotaInput.default none reg = WriteResult.ok lines reg ∧
      lines.filter (fun l => !(startsWithTab l)) =
        ["environment", "method", "model", "variables", "interface",
          "responses"] ∧
      lines.all (fun l =>
        startsWithTab l ||
          (l == "environment" || l == "method" || l == "model" ||
            l == "variables" || l == "interface" || l == "responses")) = true :=
  ⟨_, rfl, by decide, by decide⟩

/-- C8: if the driver registered by a successful `write_input` is reclaimed
(garbage collected), resolving its identity key afterwards raises
`KeyError` instead of returning a stale reference. -/
theorem reclaimed_driver_not_resolvable (inp : DakotaInput) (d : Driver)
    (reg : Registry) (lines : List String) (reg' : Registry)
    (hnd : (reg.map Prod.fst).Nodup)
    (h : write_input inp (some d) reg = WriteResult.ok lines reg') :
    fetch_data (Registry.reclaim d.oid reg') (identOf d) =
      Except.error (DakErr.keyError (identOf d)) := by
  obtain ⟨-, -, hr⟩ := write_input_some_ok inp d reg lines reg' h
  subst hr
  have hall : ∀ d', (identOf d, d') ∈ Registry.set reg (identOf d) d →
      d'.oid = d.oid := by
    intro d' hd'
    rw [Registry.mem_set_same reg (identOf d) d d' hnd hd']
  have hnone := Registry.get_reclaim_none d.oid (identOf d) _ hall
  simp [fetch_data, hnone]

theorem reclaimed_driver_not_resolvable_witness :
    fetch_data
        (Registry.reclaim sampleDriver.oid
          (Registry.set [] (identOf sampleDriver) sampleDriver))
        (identOf sampleDriver) =
      Except.error (DakErr.keyError (identOf sampleDriver)) :=
  reclaimed_driver_not_resolvable DakotaInput.default sampleDriver [] _ _
    List.nodup_nil rfl

/-- C9: writing a default-constructed `DakotaInput` with a non-null driver
yields a file whose variables section contains `continuous_design = 2` and
whose interface section ends with the `analysis_components` line for a key
that resolves through the registry to that driver. -/
theorem default_write_with_data_scenario (d : Driver) (reg : Registry) :
    ∃ lines reg',
      write_input DakotaInput.default (some d) reg = WriteResult.ok lines reg' ∧
      "\tcontinuous_design = 2" ∈ sectionContent lines "variables" ∧
      (sectionContent lines "interface").getLast? =
        some (identLine (identOf d)) ∧
      fetch_data reg' (identOf d) = Except.ok d := by
  refine ⟨preLines DakotaInput.default ++ [identLine (identOf d)] ++
      sectionBlock "responses" DakotaInput.default.responses,
    Registry.set reg (identOf d) d, ?_, ?_, ?_, ?_⟩
  · simp [write_input]
    decide
  · simp [sectionContent, preLines, sectionBlock, DakotaInput.default,
      List.dropWhile, List.takeWhile, startsWithTab]
  · simp [sectionContent, preLines, sectionBlock, DakotaInput.default,
      List.dropWhile, List.takeWhile, startsWithTab, identLine]
  · simp [fetch_data, Registry.get_set_self]

/-- C10: when `write_input` raises the conflict `RuntimeError`, the
registry is exactly what it was before the call: the data object was never
registered, because registration follows the conflict scan. -/
theorem conflict_leaves_registry_unchanged (inp : DakotaInput) (d : Driver)
    (reg : Registry) (lines : List String) (reg' : Registry)
    (h : write_input inp (some d) reg = WriteResult.conflict lines reg') :
    reg' = reg := by
  by_cases hc : hasManualAC inp
  · simp [write_input, hc] at h
    exact h.2.symm
  · simp [write_input, hc] at h

theorem conflict_leaves_registry_unchanged_witness :
    ([(identOf otherDriver, otherDriver)] : Registry) =
      [(identOf otherDriver, otherDriver)] :=
  conflict_leaves_registry_unchanged manualInput sampleDriver
    [(identOf otherDriver, otherDriver)] (preLines manualInput)
    [(identOf otherDriver, otherDriver)] rfl

end Carolina
